import Mathlib

/-!
Shallow embedding of the Nest-Auth-Standard task-management API.

The TypeScript sources are translated definition by definition:

* `src/modules/users/entities/user.entity.ts`  → `UserRole`, `StoredUser`
* `src/modules/tasks/entities/task.entity.ts`  → `TaskStatus`, `TaskPriority`, `Task`
* `src/modules/users/users.service.ts`         → `UsersService.*`
* `src/modules/auth/auth.service.ts`           → `AuthService.*`
* `src/modules/tasks/tasks.service.ts`         → `TasksService.*`
* `src/common/interceptors/cache.interceptor.ts` → `HttpCacheInterceptor.intercept`
* `src/common/guards (RolesGuard)`             → `RolesGuard.canActivate`

External collaborators are modelled explicitly:

* the relational store is a `List` of rows, lookups are `List.find?`;
* the cache-manager (Redis) is an association list `Cache α` with
  `get` / `set` / `reset`;
* bcrypt is modelled by a concrete injective tagging function (`bcryptHash`)
  and its verifier (`bcryptCompare`); the claims under study use only the
  functional interface, not one-wayness;
* timestamps are `Nat`, entity ids are `String` (UUIDs in the source);
* thrown HTTP exceptions become `Except HttpError`;
* SQL `ILIKE '%s%'` on a nullable column is modelled as case-insensitive
  substring containment, `NULL` matching nothing (SQL wildcard characters
  inside the search text are query-engine details and are not modelled).
-/

namespace NestAuth

/-- HTTP exception taxonomy used by the services (NestJS exception classes). -/
inductive HttpError where
  | unauthorized (msg : String)
  | forbidden (msg : String)
  | notFound (msg : String)
  | conflict (msg : String)
deriving DecidableEq, Repr

/-- `UserRole` enum from `user.entity.ts` (`admin` / `user`). -/
inductive UserRole where
  | admin
  | user
deriving DecidableEq, Repr

/-- A row of the `users` table (`user.entity.ts`); `password` stores the hash. -/
structure StoredUser where
  id : String
  email : String
  password : String
  firstName : String
  lastName : String
  role : UserRole
  isActive : Bool
deriving DecidableEq, Repr

/-- `TaskStatus` enum from `task.entity.ts`. -/
inductive TaskStatus where
  | todo
  | in_progress
  | done
deriving DecidableEq, Repr

/-- `TaskPriority` enum from `task.entity.ts`. -/
inductive TaskPriority where
  | low
  | medium
  | high
deriving DecidableEq, Repr

/-- A row of the `tasks` table (`task.entity.ts`); `description` and `dueDate`
are nullable columns, `userId` is the owner's id. -/
structure Task where
  id : String
  title : String
  description : Option String
  status : TaskStatus
  priority : TaskPriority
  dueDate : Option Nat
  userId : String
  createdAt : Nat
  updatedAt : Nat
deriving DecidableEq, Repr

/-- The external key-value cache store (cache-manager / Redis), keyed by
strings, newest binding first. -/
def Cache (α : Type) : Type := List (String × α)

namespace Cache

/-- `cacheManager.get(key)`. -/
def get {α : Type} (c : Cache α) (k : String) : Option α :=
  (List.find? (fun p => p.1 == k) c).map Prod.snd

/-- `cacheManager.set(key, value)` (overwrites any previous binding). -/
def set {α : Type} (c : Cache α) (k : String) (v : α) : Cache α :=
  (k, v) :: List.filter (fun p => p.1 != k) c

/-- `cacheManager.reset()`: drops every binding. -/
def reset {α : Type} (_ : Cache α) : Cache α := []

/-- The empty cache. -/
def empty {α : Type} : Cache α := []

end Cache

/-- Model of `bcrypt.hash(password, 10)`: a concrete tagging function standing
in for the external hasher. -/
def bcryptHash (password : String) : String := "bcrypt$" ++ password

/-- Model of `bcrypt.compare(password, hash)`: verifies the hash against the
password, per the hasher contract. -/
def bcryptCompare (password hash : String) : Bool := hash == bcryptHash password

/-- JWT payload `{ sub, email }` produced by `AuthService.generateToken`;
signing is the token service's job and is kept abstract, so a token is
identified with its payload. -/
structure TokenPayload where
  sub : String
  email : String
deriving DecidableEq, Repr

namespace UsersService

/-- `UsersService.findByEmail(email)`: plain repository lookup, returns
`null` (here `none`) when no row matches; equality on the stored email is
exact. -/
def findByEmail (db : List StoredUser) (email : String) : Option StoredUser :=
  List.find? (fun u => u.email == email) db

/-- `UsersService.findOne(id)`: repository lookup that THROWS
`NotFoundException` when no user has the id (it never returns `null`). -/
def findOne (db : List StoredUser) (id : String) : Except HttpError StoredUser :=
  match List.find? (fun u => u.id == id) db with
  | none => .error (.notFound s!"User with ID {id} not found")
  | some u => .ok u

/-- `UsersService.create(registerDto)`: persists a new row; `role` and
`isActive` take the entity column defaults (`user`, `true`); the caller has
already hashed the password. `newId` models the generated UUID. -/
def create (db : List StoredUser) (email password firstName lastName : String)
    (newId : String) : StoredUser × List StoredUser :=
  let u : StoredUser :=
    { id := newId, email := email, password := password,
      firstName := firstName, lastName := lastName,
      role := UserRole.user, isActive := true }
  (u, db ++ [u])

end UsersService

/-- The shape returned to the client by `register` / `login`: id, email,
names and role only — no password field at all. -/
structure UserView where
  id : String
  email : String
  firstName : String
  lastName : String
  role : UserRole
deriving DecidableEq, Repr

/-- The object literal `{ id, email, firstName, lastName, role }` built by
`AuthService.register` and `AuthService.login`. -/
def toUserView (u : StoredUser) : UserView :=
  { id := u.id, email := u.email, firstName := u.firstName,
    lastName := u.lastName, role := u.role }

/-- Result `{ user, access_token }` of `register` / `login`. -/
structure AuthResult where
  user : UserView
  access_token : TokenPayload
deriving DecidableEq, Repr

namespace AuthService

/-- `AuthService.generateToken(userId, email)`. -/
def generateToken (userId email : String) : TokenPayload :=
  { sub := userId, email := email }

/-- `AuthService.register(registerDto)`: Conflict when `findByEmail` hits,
otherwise hash the password, persist (with the entity defaults), and issue a
token; returns the new database as well. -/
def register (db : List StoredUser) (email password firstName lastName : String)
    (newId : String) : Except HttpError (AuthResult × List StoredUser) :=
  match UsersService.findByEmail db email with
  | some _ => .error (.conflict "User with this email already exists")
  | none =>
    let hashedPassword := bcryptHash password
    let created := UsersService.create db email hashedPassword firstName lastName newId
    let user := created.1
    let token := generateToken user.id user.email
    .ok ({ user := toUserView user, access_token := token }, created.2)

/-- `AuthService.login(loginDto)`: Unauthorized "Invalid credentials" when
the email is unknown, Unauthorized "Account is deactivated" when the user is
inactive, Unauthorized "Invalid credentials" when the bcrypt comparison
fails, otherwise the user view and a fresh token. -/
def login (db : List StoredUser) (email password : String) :
    Except HttpError AuthResult :=
  match UsersService.findByEmail db email with
  | none => .error (.unauthorized "Invalid credentials")
  | some user =>
    if !user.isActive then
      .error (.unauthorized "Account is deactivated")
    else if !bcryptCompare password user.password then
      .error (.unauthorized "Invalid credentials")
    else
      .ok { user := toUserView user, access_token := generateToken user.id user.email }

/-- `AuthService.validateUser(payload)`: calls `UsersService.findOne(payload.sub)`
— which throws `NotFoundException` for a missing user, so that exception
propagates (`.error`); only the inactive check can actually produce `none`
(the source's `!user` test is unreachable). -/
def validateUser (db : List StoredUser) (payload : TokenPayload) :
    Except HttpError (Option StoredUser) :=
  match UsersService.findOne db payload.sub with
  | .error e => .error e
  | .ok user =>
    if !user.isActive then .ok none
    else .ok (some user)

end AuthService

/-- Sort field accepted by `FilterTaskDto.sortBy`
(`createdAt | updatedAt | dueDate | priority`). -/
inductive SortField where
  | createdAt
  | updatedAt
  | dueDate
  | priorityField
deriving DecidableEq, Repr

/-- Sort direction accepted by `FilterTaskDto.sortOrder` (`ASC | DESC`). -/
inductive SortOrder where
  | asc
  | desc
deriving DecidableEq, Repr

/-- `FilterTaskDto` (query parameters of `GET /tasks`), after validation and
default filling: `page = 1`, `limit = 10`, `sortBy = createdAt`,
`sortOrder = DESC`. -/
structure FilterTaskDto where
  status : Option TaskStatus := none
  priority : Option TaskPriority := none
  search : Option String := none
  page : Nat := 1
  limit : Nat := 10
  sortBy : SortField := SortField.createdAt
  sortOrder : SortOrder := SortOrder.desc
deriving DecidableEq, Repr

/-- `CreateTaskDto` (body of `POST /tasks`): `title` required, the rest
optional; missing `status` / `priority` take the entity column defaults. -/
structure CreateTaskDto where
  title : String
  description : Option String := none
  status : Option TaskStatus := none
  priority : Option TaskPriority := none
  dueDate : Option Nat := none
deriving DecidableEq, Repr

/-- `UpdateTaskDto` (body of `PATCH /tasks/:id`): every field optional;
only provided fields are applied (`Object.assign`). -/
structure UpdateTaskDto where
  title : Option String := none
  description : Option String := none
  status : Option TaskStatus := none
  priority : Option TaskPriority := none
  dueDate : Option Nat := none
deriving DecidableEq, Repr

/-- `meta` object assembled by `TasksService.findAll`. -/
structure PageMeta where
  total : Nat
  page : Nat
  limit : Nat
  totalPages : Nat
  hasNextPage : Bool
  hasPreviousPage : Bool
deriving DecidableEq, Repr

/-- `{ data, meta }` payload returned (and cached) by `TasksService.findAll`. -/
structure ListResult where
  data : List Task
  meta : PageMeta
deriving DecidableEq, Repr

/-- State threaded through the tasks service: the `tasks` table and the
shared cache store holding listing payloads. -/
structure TasksState where
  tasks : List Task
  cache : Cache ListResult

/-- Checks that `pat` occurs at the start of `l`. -/
def listPrefixOf : List Char → List Char → Bool
  | [], _ => true
  | _ :: _, [] => false
  | a :: as, b :: bs => a == b && listPrefixOf as bs

/-- Checks that `pat` occurs contiguously somewhere in `l`. -/
def listContainsSub (pat : List Char) : List Char → Bool
  | [] => pat.isEmpty
  | c :: cs => listPrefixOf pat (c :: cs) || listContainsSub pat cs

/-- Character-level lower-casing of a string (what `String.toLower` computes:
`Char.toLower` mapped over the characters). -/
def strToLower (s : String) : List Char :=
  s.data.map Char.toLower

/-- Case-insensitive substring containment: the model of
`column ILIKE '%needle%'` on a non-NULL column. -/
def strContainsCI (hay needle : String) : Bool :=
  listContainsSub (strToLower needle) (strToLower hay)

/-- The `(task.title ILIKE :search OR task.description ILIKE :search)`
condition with `:search = '%' + s + '%'`; a NULL description matches
nothing, as in SQL. -/
def searchCond (s : String) (t : Task) : Bool :=
  strContainsCI t.title s ||
    (match t.description with
     | some d => strContainsCI d s
     | none => false)

/-- The WHERE clause the query builder accumulates in `findAll`:
`task.userId = :userId`, then `andWhere` for `status` / `priority` when the
DTO field is truthy, then the search condition when `search` is truthy
(in JavaScript an empty string is falsy, so `search = ""` adds nothing). -/
def queryWhere (userId : String) (f : FilterTaskDto) (t : Task) : Bool :=
  (t.userId == userId)
  && (match f.status with
      | some s => t.status == s
      | none => true)
  && (match f.priority with
      | some p => t.priority == p
      | none => true)
  && (match f.search with
      | some s => if s == "" then true else searchCond s t
      | none => true)

/-- The rows of the table satisfying the accumulated WHERE clause
(the pre-pagination matching set; its length is `getManyAndCount`'s total). -/
def queryRows (tasks : List Task) (userId : String) (f : FilterTaskDto) :
    List Task :=
  List.filter (queryWhere userId f) tasks

/-- Numeric sort key for `orderBy('task.' + sortBy, ...)`; a NULL `dueDate`
sorts as 0 in this model of the external engine's ordering. -/
def sortFieldKey (field : SortField) (t : Task) : Nat :=
  match field with
  | SortField.createdAt => t.createdAt
  | SortField.updatedAt => t.updatedAt
  | SortField.dueDate =>
    match t.dueDate with
    | some d => d
    | none => 0
  | SortField.priorityField =>
    match t.priority with
    | TaskPriority.low => 0
    | TaskPriority.medium => 1
    | TaskPriority.high => 2

/-- Comparison used by the ordering: ascending or descending on the key. -/
def sortLe (field : SortField) (ord : SortOrder) (a b : Task) : Bool :=
  match ord with
  | SortOrder.asc => sortFieldKey field a ≤ sortFieldKey field b
  | SortOrder.desc => sortFieldKey field b ≤ sortFieldKey field a

/-- Insert into a sorted list (helper for the ordering model). -/
def insertSorted (le : Task → Task → Bool) (t : Task) : List Task → List Task
  | [] => [t]
  | x :: xs => if le t x then t :: x :: xs else x :: insertSorted le t xs

/-- Stable insertion sort: the model of the external engine's ORDER BY. -/
def sortTasks (le : Task → Task → Bool) : List Task → List Task
  | [] => []
  | x :: xs => insertSorted le x (sortTasks le xs)

/-- `skip((page - 1) * limit).take(limit)`. -/
def paginate (page limit : Nat) (l : List Task) : List Task :=
  (l.drop ((page - 1) * limit)).take limit

/-- `Math.ceil(total / limit)` for positive integer `limit`. -/
def jsCeilDiv (total limit : Nat) : Nat := (total + limit - 1) / limit

/-- Rendering of a filter value inside the cache key; stands in for its
JSON.stringify rendering (a fixed injective-enough textual form — only
determinism matters to the claims). -/
def serializeFilter (f : FilterTaskDto) : String :=
  let statusStr := match f.status with
    | some TaskStatus.todo => "todo"
    | some TaskStatus.in_progress => "in_progress"
    | some TaskStatus.done => "done"
    | none => ""
  let priorityStr := match f.priority with
    | some TaskPriority.low => "low"
    | some TaskPriority.medium => "medium"
    | some TaskPriority.high => "high"
    | none => ""
  let searchStr := match f.search with
    | some s => s
    | none => ""
  let sortByStr := match f.sortBy with
    | SortField.createdAt => "createdAt"
    | SortField.updatedAt => "updatedAt"
    | SortField.dueDate => "dueDate"
    | SortField.priorityField => "priority"
  let sortOrderStr := match f.sortOrder with
    | SortOrder.asc => "ASC"
    | SortOrder.desc => "DESC"
  String.intercalate "|"
    [statusStr, priorityStr, searchStr, toString f.page, toString f.limit,
     sortByStr, sortOrderStr]

/-- The listing cache key `tasks:${user.id}:${JSON.stringify(filterDto)}` —
a function of the owner id and the full criteria value, nothing else. -/
def tasksCacheKey (userId : String) (f : FilterTaskDto) : String :=
  "tasks:" ++ userId ++ ":" ++ serializeFilter f

namespace TasksService

/-- `TasksService.create(createTaskDto, user)`: persists a row owned by the
caller (entity defaults for missing status/priority), then
`invalidateTasksCache` resets the whole cache. `newId` and `now` model the
generated UUID and the timestamp columns. -/
def create (st : TasksState) (dto : CreateTaskDto) (user : StoredUser)
    (newId : String) (now : Nat) : Task × TasksState :=
  let task : Task :=
    { id := newId, title := dto.title, description := dto.description,
      status := dto.status.getD TaskStatus.todo,
      priority := dto.priority.getD TaskPriority.medium,
      dueDate := dto.dueDate, userId := user.id,
      createdAt := now, updatedAt := now }
  (task, { tasks := st.tasks ++ [task], cache := Cache.reset st.cache })

/-- The cache-miss body of `findAll`: filter, order, paginate,
`getManyAndCount`, and assemble `{ data, meta }`. -/
def computeListing (tasks : List Task) (f : FilterTaskDto) (userId : String) :
    ListResult :=
  let matching := queryRows tasks userId f
  let sorted := sortTasks (sortLe f.sortBy f.sortOrder) matching
  let pageTasks := paginate f.page f.limit sorted
  let total := matching.length
  { data := pageTasks,
    meta :=
      { total := total, page := f.page, limit := f.limit,
        totalPages := jsCeilDiv total f.limit,
        hasNextPage := decide (f.page < jsCeilDiv total f.limit),
        hasPreviousPage := decide (f.page > 1) } }

/-- `TasksService.findAll(filterDto, user)`: on cache hit return the cached
payload verbatim; on miss compute the listing, store it under the key, and
return it. -/
def findAll (st : TasksState) (f : FilterTaskDto) (user : StoredUser) :
    ListResult × TasksState :=
  let cacheKey := tasksCacheKey user.id f
  match Cache.get st.cache cacheKey with
  | some cachedResult => (cachedResult, st)
  | none =>
    let result := computeListing st.tasks f user.id
    (result, { st with cache := Cache.set st.cache cacheKey result })

/-- `TasksService.findOne(id, user)`: NotFound when no row has the id,
Forbidden when the row's owner differs from the caller and the caller is not
an admin, otherwise the task. -/
def findOne (tasks : List Task) (id : String) (user : StoredUser) :
    Except HttpError Task :=
  match List.find? (fun t => t.id == id) tasks with
  | none => .error (.notFound s!"Task with ID {id} not found")
  | some task =>
    if task.userId != user.id && user.role != UserRole.admin then
      .error (.forbidden "You can only access your own tasks")
    else
      .ok task

/-- `Object.assign(task, updateTaskDto)`: apply only the provided fields. -/
def applyPatch (t : Task) (p : UpdateTaskDto) : Task :=
  { t with
    title := p.title.getD t.title,
    description := match p.description with
      | some d => some d
      | none => t.description,
    status := p.status.getD t.status,
    priority := p.priority.getD t.priority,
    dueDate := match p.dueDate with
      | some d => some d
      | none => t.dueDate }

/-- `TasksService.update(id, updateTaskDto, user)`: `findOne` (ownership
check included), merge the provided fields, persist (the engine refreshes
`updatedAt`), reset the whole cache. -/
def update (st : TasksState) (id : String) (p : UpdateTaskDto)
    (user : StoredUser) (now : Nat) : Except HttpError (Task × TasksState) :=
  match findOne st.tasks id user with
  | .error e => .error e
  | .ok task =>
    let updatedTask := { applyPatch task p with updatedAt := now }
    let tasks := st.tasks.map (fun t => if t.id == id then updatedTask else t)
    .ok (updatedTask, { tasks := tasks, cache := Cache.reset st.cache })

/-- `TasksService.remove(id, user)`: `findOne` (ownership check included),
delete the row, reset the whole cache. -/
def remove (st : TasksState) (id : String) (user : StoredUser) :
    Except HttpError TasksState :=
  match findOne st.tasks id user with
  | .error e => .error e
  | .ok _ =>
    .ok { tasks := st.tasks.filter (fun t => t.id != id),
          cache := Cache.reset st.cache }

end TasksService

/-- The part of the HTTP request the cache interceptor and the roles guard
look at; `user` is the caller attached by the authentication guard
(`none` on public or unauthenticated requests). -/
structure HttpRequest where
  method : String
  url : String
  user : Option StoredUser

/-- The response-cache key `cache:${request.url}` — built from the URL
alone, with no caller identity. -/
def interceptorCacheKey (req : HttpRequest) : String :=
  "cache:" ++ req.url

namespace HttpCacheInterceptor

/-- `HttpCacheInterceptor.intercept`: pass non-GET requests through; for GET,
return the cached response when the key hits, otherwise run the handler and
store its response under the key. -/
def intercept {Resp : Type} (cache : Cache Resp) (req : HttpRequest)
    (handler : HttpRequest → Resp) : Resp × Cache Resp :=
  if req.method != "GET" then (handler req, cache)
  else
    let cacheKey := interceptorCacheKey req
    match Cache.get cache cacheKey with
    | some cachedResponse => (cachedResponse, cache)
    | none =>
      let response := handler req
      (response, Cache.set cache cacheKey response)

end HttpCacheInterceptor

namespace RolesGuard

/-- `RolesGuard.canActivate`: `requiredRoles` is the `@Roles()` metadata
(`none` when the decorator is absent). Absent or empty list ⇒ allow; then a
missing request user ⇒ Forbidden; then role membership via
`requiredRoles.some(role => user.role === role)`, Forbidden on failure. -/
def canActivate (requiredRoles : Option (List UserRole))
    (user : Option StoredUser) : Except HttpError Bool :=
  match requiredRoles with
  | none => .ok true
  | some roles =>
    if roles.isEmpty then .ok true
    else
      match user with
      | none => .error (.forbidden "User not authenticated")
      | some u =>
        if roles.any (fun role => u.role == role) then .ok true
        else .error (.forbidden "Access denied. Required role(s) missing")

end RolesGuard

/-! ### Concrete sample data used by the witnesses -/

/-- A non-admin active user (Alice). -/
def aliceUser : StoredUser :=
  { id := "alice-id", email := "alice@example.com",
    password := bcryptHash "alice-pw", firstName := "Alice", lastName := "A",
    role := UserRole.user, isActive := true }

/-- Another non-admin active user (Bob). -/
def bobUser : StoredUser :=
  { id := "bob-id", email := "bob@example.com",
    password := bcryptHash "bob-pw", firstName := "Bob", lastName := "B",
    role := UserRole.user, isActive := true }

/-- An admin user. -/
def adminUser : StoredUser :=
  { id := "admin-id", email := "admin@example.com",
    password := bcryptHash "admin-pw", firstName := "Ada", lastName := "Admin",
    role := UserRole.admin, isActive := true }

/-- A deactivated user (Carol). -/
def inactiveUser : StoredUser :=
  { id := "carol-id", email := "carol@example.com",
    password := bcryptHash "carol-pw", firstName := "Carol", lastName := "C",
    role := UserRole.user, isActive := false }

/-- A task owned by Bob. -/
def taskOfBob : Task :=
  { id := "t1", title := "Quarterly report", description := some "Draft the report",
    status := TaskStatus.done, priority := TaskPriority.high,
    dueDate := none, userId := "bob-id", createdAt := 1, updatedAt := 1 }

/-- A stale cached listing used to show invalidation. -/
def staleListing : ListResult :=
  { data := [taskOfBob],
    meta := { total := 1, page := 1, limit := 10, totalPages := 1,
              hasNextPage := false, hasPreviousPage := false } }

/-- A state holding Bob's task and a non-empty cache. -/
def stBob : TasksState :=
  { tasks := [taskOfBob],
    cache := Cache.set Cache.empty "tasks:bob-id:stale" staleListing }

/-- Bob's task after an empty patch at time 5 (only `updatedAt` changes). -/
def taskOfBobTouched : Task := { taskOfBob with updatedAt := 5 }

/-- The owner used in the pagination scenario. -/
def owner25 : StoredUser :=
  { id := "owner-id", email := "owner@example.com",
    password := bcryptHash "owner-pw", firstName := "Owen", lastName := "O",
    role := UserRole.user, isActive := true }

/-- One of 25 identical-shape tasks owned by `owner25`. -/
def mkOwnedTask (i : Nat) : Task :=
  { id := toString i, title := "Task", description := none,
    status := TaskStatus.todo, priority := TaskPriority.medium,
    dueDate := none, userId := "owner-id", createdAt := i, updatedAt := i }

/-- 25 tasks owned by `owner25`. -/
def tasks25 : List Task := (List.range 25).map mkOwnedTask

/-- A state with the 25 tasks and an empty cache. -/
def st25 : TasksState := { tasks := tasks25, cache := Cache.empty }

/-- Page 3 with limit 10 and no filters. -/
def filter325 : FilterTaskDto := { page := 3, limit := 10 }

/-- A done task whose title contains "Report". -/
def reportTask : Task :=
  { id := "r1", title := "Quarterly Report", description := none,
    status := TaskStatus.done, priority := TaskPriority.high,
    dueDate := none, userId := "owner-id", createdAt := 3, updatedAt := 3 }

/-- A done task mentioning no report at all. -/
def otherDoneTask : Task :=
  { id := "r2", title := "Cleanup", description := some "tidy the desk",
    status := TaskStatus.done, priority := TaskPriority.low,
    dueDate := none, userId := "owner-id", createdAt := 2, updatedAt := 2 }

/-- A todo task mentioning a report. -/
def reportTodoTask : Task :=
  { id := "r3", title := "report draft", description := none,
    status := TaskStatus.todo, priority := TaskPriority.medium,
    dueDate := none, userId := "owner-id", createdAt := 1, updatedAt := 1 }

/-- Filter status=done with search "report". -/
def fDoneReport : FilterTaskDto :=
  { status := some TaskStatus.done, search := some "report" }

/-- State for the status=done + search "report" scenario. -/
def stReport : TasksState :=
  { tasks := [reportTask, otherDoneTask, reportTodoTask], cache := Cache.empty }

/-! ### Shared lemmas about the cache store -/

/-- Looking up a key right after setting it yields the stored value. -/
theorem cache_get_set_self {α : Type} (c : Cache α) (k : String) (v : α) :
    Cache.get (Cache.set c k v) k = some v := by
  simp [Cache.get, Cache.set, List.find?]

/-- A reset cache holds nothing. -/
theorem cache_get_reset {α : Type} (c : Cache α) (k : String) :
    Cache.get (Cache.reset c) k = none := rfl

/-! ### Shared lemmas about the search / sort / pagination model -/

/-- The empty pattern occurs in every list. -/
theorem listContainsSub_nil (l : List Char) : listContainsSub [] l = true := by
  cases l with
  | nil => rfl
  | cons c cs => simp [listContainsSub, listPrefixOf]

/-- Every string contains the empty string, case-insensitively. -/
theorem strContainsCI_empty (hay : String) : strContainsCI hay "" = true := by
  unfold strContainsCI
  rw [show strToLower "" = [] from rfl]
  exact listContainsSub_nil _

/-- Membership in `insertSorted` is membership in the inserted element or the
list. -/
theorem mem_insertSorted (le : Task → Task → Bool) (t x : Task) (l : List Task) :
    x ∈ insertSorted le t l ↔ x = t ∨ x ∈ l := by
  induction l with
  | nil => simp [insertSorted]
  | cons y ys ih =>
    cases hc : le t y with
    | true => simp [insertSorted, hc]
    | false =>
      simp only [insertSorted, hc, Bool.false_eq_true, if_false, List.mem_cons, ih]
      tauto

/-- Sorting does not change membership. -/
theorem mem_sortTasks (le : Task → Task → Bool) (x : Task) (l : List Task) :
    x ∈ sortTasks le l ↔ x ∈ l := by
  induction l with
  | nil => simp [sortTasks]
  | cons y ys ih =>
    simp only [sortTasks, mem_insertSorted, List.mem_cons, ih]

/-- A member of a page is a member of the full list. -/
theorem mem_of_mem_paginate (page limit : Nat) (x : Task) (l : List Task)
    (h : x ∈ paginate page limit l) : x ∈ l :=
  List.mem_of_mem_drop (List.mem_of_mem_take h)

/-- On a cache hit, `findAll` returns the cached payload and leaves the
state untouched. -/
theorem findAll_hit (st : TasksState) (f : FilterTaskDto) (user : StoredUser)
    (r : ListResult) (h : Cache.get st.cache (tasksCacheKey user.id f) = some r) :
    TasksService.findAll st f user = (r, st) := by
  unfold TasksService.findAll
  simp [h]

/-- On a cache miss, `findAll` computes the listing and stores it under the
key. -/
theorem findAll_miss (st : TasksState) (f : FilterTaskDto) (user : StoredUser)
    (h : Cache.get st.cache (tasksCacheKey user.id f) = none) :
    TasksService.findAll st f user =
      (TasksService.computeListing st.tasks f user.id,
       { st with
          cache := Cache.set st.cache (tasksCacheKey user.id f)
            (TasksService.computeListing st.tasks f user.id) }) := by
  unfold TasksService.findAll
  simp [h]

/-- `jsCeilDiv total limit` is the ceiling of `total / limit`: together the
two bounds say it is the unique `n` with `total ≤ n * limit < total + limit`,
i.e. the least `n` with `total ≤ n * limit`. -/
theorem jsCeilDiv_is_ceil (total limit : Nat) (h : 0 < limit) :
    total ≤ jsCeilDiv total limit * limit ∧
    jsCeilDiv total limit * limit < total + limit := by
  unfold jsCeilDiv
  rcases Nat.eq_zero_or_pos total with h0 | h0
  · subst h0
    rw [Nat.div_eq_of_lt (by omega)]
    simpa using h
  · have he : total + limit - 1 = (total - 1) + limit := by omega
    rw [he, Nat.add_div_right _ h]
    constructor
    · have hlt := Nat.lt_mul_div_succ (total - 1) h
      calc total = (total - 1) + 1 := by omega
        _ ≤ limit * ((total - 1) / limit + 1) := hlt
        _ = ((total - 1) / limit + 1) * limit := Nat.mul_comm _ _
    · have hle : (total - 1) / limit * limit ≤ total - 1 :=
        Nat.div_mul_le_self _ _
      have : ((total - 1) / limit + 1) * limit =
          (total - 1) / limit * limit + limit := by ring
      omega

/-- The search condition holds exactly when the title or a non-NULL
description contains the text case-insensitively. -/
theorem searchCond_eq_true_iff (s : String) (t : Task) :
    searchCond s t = true ↔
      (strContainsCI t.title s = true ∨
        ∃ d, t.description = some d ∧ strContainsCI d s = true) := by
  unfold searchCond
  cases hd : t.description with
  | none => simp
  | some d => simp

/-! ### Claim theorems -/

/-- C1: the claim says `validateUser(payload)` returns null (never raises)
when the user is missing. In the code `UsersService.findOne` throws
`NotFoundException` for a missing user, and `validateUser` calls it, so on a
payload whose subject matches no user the call raises NotFound instead of
returning null; only the inactive case actually returns null. This theorem
evaluates both branches at concrete inputs. -/
theorem c1_validateUser_missing_user_raises_notFound :
    AuthService.validateUser []
        { sub := "missing-id", email := "ghost@example.com" } =
      Except.error (HttpError.notFound "User with ID missing-id not found") ∧
    AuthService.validateUser [inactiveUser]
        { sub := "carol-id", email := "carol@example.com" } =
      Except.ok none :=
  ⟨rfl, rfl⟩

/-- C2: the response-cache key of the HTTP cache interceptor is computed from
the request URL alone (no caller identity), so for two distinct
authenticated users A and B and the same URL, B's GET request right after
A's returns exactly the response produced for A. -/
theorem c2_cache_shared_across_users {Resp : Type}
    (cache : Cache Resp) (url : String) (a b : StoredUser) (_hab : a ≠ b)
    (handlerA handlerB : HttpRequest → Resp) :
    interceptorCacheKey { method := "GET", url := url, user := some a } =
      interceptorCacheKey { method := "GET", url := url, user := some b } ∧
    (HttpCacheInterceptor.intercept
        (HttpCacheInterceptor.intercept cache
          { method := "GET", url := url, user := some a } handlerA).2
        { method := "GET", url := url, user := some b } handlerB).1 =
      (HttpCacheInterceptor.intercept cache
        { method := "GET", url := url, user := some a } handlerA).1 := by
  refine ⟨rfl, ?_⟩
  unfold HttpCacheInterceptor.intercept interceptorCacheKey
  simp only [bne_self_eq_false, Bool.false_eq_true, if_false]
  cases h : Cache.get cache ("cache:" ++ url) with
  | some r => simp [h]
  | none => simp [h, cache_get_set_self]

/-- C2 witness: with an empty cache, Alice's GET caches 7, and Bob's GET to
the same URL returns Alice's 7 even though his handler would produce 99. -/
theorem c2_witness :
    aliceUser ≠ bobUser ∧
    (HttpCacheInterceptor.intercept
        (HttpCacheInterceptor.intercept (Cache.empty : Cache Nat)
          { method := "GET", url := "/api/v1/tasks?page=1", user := some aliceUser }
          (fun _ => 7)).2
        { method := "GET", url := "/api/v1/tasks?page=1", user := some bobUser }
        (fun _ => 99)).1 = 7 :=
  ⟨by decide,
   ((c2_cache_shared_across_users (Cache.empty : Cache Nat) "/api/v1/tasks?page=1"
      aliceUser bobUser (by decide) (fun _ => 7) (fun _ => 99)).2).trans rfl⟩

/-- C3: `TasksService.findOne(id, user)` is NotFound when no row has the id,
Forbidden when the row's owner differs from the caller and the caller is not
an admin, and returns the task when the caller owns it or is an admin. -/
theorem c3_task_get_access_control (tasks : List Task) (id : String)
    (user : StoredUser) :
    (List.find? (fun t => t.id == id) tasks = none →
      TasksService.findOne tasks id user =
        Except.error (HttpError.notFound s!"Task with ID {id} not found")) ∧
    (∀ task, List.find? (fun t => t.id == id) tasks = some task →
      task.userId ≠ user.id → user.role ≠ UserRole.admin →
      TasksService.findOne tasks id user =
        Except.error (HttpError.forbidden "You can only access your own tasks")) ∧
    (∀ task, List.find? (fun t => t.id == id) tasks = some task →
      (task.userId = user.id ∨ user.role = UserRole.admin) →
      TasksService.findOne tasks id user = Except.ok task) := by
  refine ⟨?_, ?_, ?_⟩
  · intro h
    simp [TasksService.findOne, h]
  · intro task h h1 h2
    simp [TasksService.findOne, h, h1, h2]
  · intro task h h1
    rcases h1 with h1 | h1 <;> simp [TasksService.findOne, h, h1]

/-- C3 witness: Bob's task requested by non-admin Alice fails with Forbidden;
the same request by an admin returns the task. -/
theorem c3_witness :
    (List.find? (fun t => t.id == "t1") [taskOfBob] = some taskOfBob ∧
      taskOfBob.userId ≠ aliceUser.id ∧ aliceUser.role ≠ UserRole.admin ∧
      TasksService.findOne [taskOfBob] "t1" aliceUser =
        Except.error (HttpError.forbidden "You can only access your own tasks")) ∧
    TasksService.findOne [taskOfBob] "t1" adminUser = Except.ok taskOfBob :=
  ⟨⟨by decide, by decide, by decide,
    (c3_task_get_access_control [taskOfBob] "t1" aliceUser).2.1 taskOfBob
      (by decide) (by decide) (by decide)⟩,
   (c3_task_get_access_control [taskOfBob] "t1" adminUser).2.2 taskOfBob
      (by decide) (Or.inr rfl)⟩

/-- C4: every login failure mode is Unauthorized; unknown email and failed
password verification return the identical generic "Invalid credentials"
message, while an inactive account returns the distinct
"Account is deactivated" message. -/
theorem c4_login_failure_modes (db : List StoredUser) (email password : String) :
    (UsersService.findByEmail db email = none →
      AuthService.login db email password =
        Except.error (HttpError.unauthorized "Invalid credentials")) ∧
    (∀ u, UsersService.findByEmail db email = some u → u.isActive = false →
      AuthService.login db email password =
        Except.error (HttpError.unauthorized "Account is deactivated")) ∧
    (∀ u, UsersService.findByEmail db email = some u → u.isActive = true →
      bcryptCompare password u.password = false →
      AuthService.login db email password =
        Except.error (HttpError.unauthorized "Invalid credentials")) := by
  refine ⟨?_, ?_, ?_⟩
  · intro h
    simp [AuthService.login, h]
  · intro u h hact
    simp [AuthService.login, h, hact]
  · intro u h hact hcmp
    simp [AuthService.login, h, hact, hcmp]

/-- C4 witness: wrong email and wrong password both yield the generic
Unauthorized message; a deactivated account yields the distinct one. -/
theorem c4_witness :
    (UsersService.findByEmail [aliceUser, inactiveUser] "nobody@example.com" = none ∧
      AuthService.login [aliceUser, inactiveUser] "nobody@example.com" "pw" =
        Except.error (HttpError.unauthorized "Invalid credentials")) ∧
    (inactiveUser.isActive = false ∧
      AuthService.login [aliceUser, inactiveUser] "carol@example.com" "carol-pw" =
        Except.error (HttpError.unauthorized "Account is deactivated")) ∧
    (bcryptCompare "wrong-pw" aliceUser.password = false ∧
      AuthService.login [aliceUser, inactiveUser] "alice@example.com" "wrong-pw" =
        Except.error (HttpError.unauthorized "Invalid credentials")) :=
  ⟨⟨by decide,
    (c4_login_failure_modes [aliceUser, inactiveUser] "nobody@example.com" "pw").1
      (by decide)⟩,
   ⟨rfl,
    (c4_login_failure_modes [aliceUser, inactiveUser] "carol@example.com"
      "carol-pw").2.1 inactiveUser (by decide) rfl⟩,
   ⟨by decide,
    (c4_login_failure_modes [aliceUser, inactiveUser] "alice@example.com"
      "wrong-pw").2.2 aliceUser (by decide) rfl (by decide)⟩⟩

/-- C5: registration conflicts exactly when a stored user's email equals the
given one; otherwise the persisted user carries the defaults role=user and
isActive=true, the hash of the password (not the password), a token is
issued for the new user, and the returned view is insensitive to the stored
password hash (it has no password field). -/
theorem c5_register_semantics (db : List StoredUser)
    (email password firstName lastName newId : String) :
    (∀ u, UsersService.findByEmail db email = some u →
      AuthService.register db email password firstName lastName newId =
        Except.error (HttpError.conflict "User with this email already exists")) ∧
    (UsersService.findByEmail db email = none →
      AuthService.register db email password firstName lastName newId =
        Except.ok
          ({ user := { id := newId, email := email, firstName := firstName,
                       lastName := lastName, role := UserRole.user },
             access_token := { sub := newId, email := email } },
           db ++ [{ id := newId, email := email,
                    password := bcryptHash password,
                    firstName := firstName, lastName := lastName,
                    role := UserRole.user, isActive := true }])) ∧
    (∀ u p, toUserView { u with password := p } = toUserView u) := by
  refine ⟨?_, ?_, ?_⟩
  · intro u h
    simp [AuthService.register, h]
  · intro h
    simp [AuthService.register, h, UsersService.create, AuthService.generateToken,
      toUserView]
  · intro u p
    rfl

/-- C5 witness: registering on an empty store succeeds with the defaults and
a token; registering the same email again on the resulting store fails with
Conflict. -/
theorem c5_witness :
    (UsersService.findByEmail [] "dora@example.com" = none ∧
      AuthService.register [] "dora@example.com" "dora-pw" "Dora" "D" "dora-id" =
        Except.ok
          ({ user := { id := "dora-id", email := "dora@example.com",
                       firstName := "Dora", lastName := "D",
                       role := UserRole.user },
             access_token := { sub := "dora-id", email := "dora@example.com" } },
           [{ id := "dora-id", email := "dora@example.com",
              password := bcryptHash "dora-pw", firstName := "Dora",
              lastName := "D", role := UserRole.user, isActive := true }])) ∧
    AuthService.register
        [{ id := "dora-id", email := "dora@example.com",
           password := bcryptHash "dora-pw", firstName := "Dora",
           lastName := "D", role := UserRole.user, isActive := true }]
        "dora@example.com" "other-pw" "Imposter" "I" "other-id" =
      Except.error (HttpError.conflict "User with this email already exists") :=
  ⟨⟨rfl,
    (c5_register_semantics [] "dora@example.com" "dora-pw" "Dora" "D"
      "dora-id").2.1 rfl⟩,
   (c5_register_semantics
      [{ id := "dora-id", email := "dora@example.com",
         password := bcryptHash "dora-pw", firstName := "Dora",
         lastName := "D", role := UserRole.user, isActive := true }]
      "dora@example.com" "other-pw" "Imposter" "I" "other-id").1
     { id := "dora-id", email := "dora@example.com",
       password := bcryptHash "dora-pw", firstName := "Dora",
       lastName := "D", role := UserRole.user, isActive := true }
     (by decide)⟩

/-- C6: on a cache miss the page metadata satisfies
`total = number of matching rows before pagination`, `page` and `limit` echo
the criteria, `totalPages` is the ceiling of `total / limit` (characterised
by `total ≤ totalPages * limit < total + limit`), `hasNextPage` is
`page < totalPages` and `hasPreviousPage` is `page > 1`. -/
theorem c6_page_meta (st : TasksState) (f : FilterTaskDto) (user : StoredUser)
    (hmiss : Cache.get st.cache (tasksCacheKey user.id f) = none)
    (hlim : 0 < f.limit) :
    ((TasksService.findAll st f user).1.meta.total =
        (queryRows st.tasks user.id f).length) ∧
    ((TasksService.findAll st f user).1.meta.page = f.page) ∧
    ((TasksService.findAll st f user).1.meta.limit = f.limit) ∧
    ((queryRows st.tasks user.id f).length ≤
        (TasksService.findAll st f user).1.meta.totalPages * f.limit) ∧
    ((TasksService.findAll st f user).1.meta.totalPages * f.limit <
        (queryRows st.tasks user.id f).length + f.limit) ∧
    ((TasksService.findAll st f user).1.meta.hasNextPage =
        decide (f.page < (TasksService.findAll st f user).1.meta.totalPages)) ∧
    ((TasksService.findAll st f user).1.meta.hasPreviousPage =
        decide (1 < f.page)) := by
  rw [findAll_miss st f user hmiss]
  have hceil :=
    jsCeilDiv_is_ceil (queryRows st.tasks user.id f).length f.limit hlim
  exact ⟨rfl, rfl, rfl, hceil.1, hceil.2, rfl, rfl⟩

/-- C6 witness: 25 matching rows with page=3, limit=10 produce
`{total: 25, page: 3, limit: 10, totalPages: 3, hasNextPage: false,
hasPreviousPage: true}`. -/
theorem c6_witness :
    (Cache.get st25.cache (tasksCacheKey owner25.id filter325) = none ∧
      0 < filter325.limit ∧
      (TasksService.findAll st25 filter325 owner25).1.meta.total =
        (queryRows st25.tasks owner25.id filter325).length) ∧
    (TasksService.findAll st25 filter325 owner25).1.meta =
      { total := 25, page := 3, limit := 10, totalPages := 3,
        hasNextPage := false, hasPreviousPage := true } :=
  ⟨⟨rfl, by decide,
    (c6_page_meta st25 filter325 owner25 rfl (by decide)).1⟩,
   by decide⟩

/-- C7: a task is in the pre-pagination matching set exactly when it is a
stored row owned by the caller that satisfies the status filter when
present, the priority filter when present and, when search text is present,
has the text as a case-insensitive substring of the title or of a non-null
description; and every row in the returned page belongs to that set. -/
theorem c7_filter_predicate (st : TasksState) (f : FilterTaskDto)
    (user : StoredUser) (t : Task) :
    (t ∈ queryRows st.tasks user.id f ↔
      (t ∈ st.tasks ∧ t.userId = user.id ∧
        (∀ s, f.status = some s → t.status = s) ∧
        (∀ p, f.priority = some p → t.priority = p) ∧
        (∀ s, f.search = some s →
          (strContainsCI t.title s = true ∨
            ∃ d, t.description = some d ∧ strContainsCI d s = true)))) ∧
    (Cache.get st.cache (tasksCacheKey user.id f) = none →
      ∀ x, x ∈ (TasksService.findAll st f user).1.data →
        x ∈ queryRows st.tasks user.id f) := by
  constructor
  · simp only [queryRows, List.mem_filter]
    constructor
    · rintro ⟨hmem, hw⟩
      unfold queryWhere at hw
      simp only [Bool.and_eq_true] at hw
      obtain ⟨⟨⟨hid, hst⟩, hpr⟩, hse⟩ := hw
      refine ⟨hmem, by simpa using hid, ?_, ?_, ?_⟩
      · intro s hs
        rw [hs] at hst
        simpa using hst
      · intro p hp
        rw [hp] at hpr
        simpa using hpr
      · intro s hs
        rw [hs] at hse
        by_cases he : s = ""
        · subst he
          exact Or.inl (strContainsCI_empty t.title)
        · simp only [beq_iff_eq, he, if_false] at hse
          exact (searchCond_eq_true_iff s t).mp hse
    · rintro ⟨hmem, hid, hst, hpr, hse⟩
      refine ⟨hmem, ?_⟩
      unfold queryWhere
      simp only [Bool.and_eq_true]
      refine ⟨⟨⟨by simpa using hid, ?_⟩, ?_⟩, ?_⟩
      · cases ho : f.status with
        | none => rfl
        | some s => simpa using hst s ho
      · cases ho : f.priority with
        | none => rfl
        | some p => simpa using hpr p ho
      · cases ho : f.search with
        | none => rfl
        | some s =>
          by_cases he : s = ""
          · subst he
            rfl
          · simp only [beq_iff_eq, he, if_false]
            exact (searchCond_eq_true_iff s t).mpr (hse s ho)
  · intro hmiss x hx
    rw [findAll_miss st f user hmiss] at hx
    unfold TasksService.computeListing at hx
    exact (mem_sortTasks _ _ _).mp (mem_of_mem_paginate _ _ _ _ hx)

/-- C7 witness: with status=done and search "report", the matching set is
exactly the done task titled "Quarterly Report", and the returned page's
rows all belong to the matching set. -/
theorem c7_witness :
    (Cache.get stReport.cache (tasksCacheKey owner25.id fDoneReport) = none ∧
      queryRows stReport.tasks owner25.id fDoneReport = [reportTask] ∧
      reportTask ∈ (TasksService.findAll stReport fDoneReport owner25).1.data) ∧
    reportTask ∈ queryRows stReport.tasks owner25.id fDoneReport :=
  ⟨⟨rfl, by decide, by decide⟩,
   (c7_filter_predicate stReport fDoneReport owner25 reportTask).2 rfl
     reportTask (by decide)⟩

/-- C8: each completed task write — create, successful update, successful
remove — leaves the cache with no entry under any key, so every later
listing recomputes. -/
theorem c8_writes_reset_cache (st : TasksState) (user : StoredUser) :
    (∀ dto newId now k,
      Cache.get (TasksService.create st dto user newId now).2.cache k = none) ∧
    (∀ id p now result,
      TasksService.update st id p user now = Except.ok result →
      ∀ k, Cache.get result.2.cache k = none) ∧
    (∀ id st2,
      TasksService.remove st id user = Except.ok st2 →
      ∀ k, Cache.get st2.cache k = none) := by
  refine ⟨?_, ?_, ?_⟩
  · intro dto newId now k
    rfl
  · intro id p now result h k
    unfold TasksService.update at h
    cases hfo : TasksService.findOne st.tasks id user with
    | error e =>
      rw [hfo] at h
      exact absurd h (by simp)
    | ok task =>
      rw [hfo] at h
      simp only [Except.ok.injEq] at h
      rw [← h]
      rfl
  · intro id st2 h k
    unfold TasksService.remove at h
    cases hfo : TasksService.findOne st.tasks id user with
    | error e =>
      rw [hfo] at h
      exact absurd h (by simp)
    | ok task =>
      rw [hfo] at h
      simp only [Except.ok.injEq] at h
      rw [← h]
      rfl

/-- C8 witness: a successful update of Bob's task empties the previously
non-empty cache, and so does a create. -/
theorem c8_witness :
    TasksService.update stBob "t1" {} bobUser 5 =
      Except.ok (taskOfBobTouched,
        { tasks := [taskOfBobTouched], cache := [] }) ∧
    Cache.get
      (({ tasks := [taskOfBobTouched], cache := [] } : TasksState)).cache
      "tasks:bob-id:stale" = none ∧
    Cache.get (TasksService.create stBob { title := "New" } bobUser "t2" 7).2.cache
      "tasks:bob-id:stale" = none :=
  ⟨rfl,
   (c8_writes_reset_cache stBob bobUser).2.1 "t1" {} 5
     (taskOfBobTouched, { tasks := [taskOfBobTouched], cache := [] })
     rfl "tasks:bob-id:stale",
   (c8_writes_reset_cache stBob bobUser).1 { title := "New" } "t2" 7
     "tasks:bob-id:stale"⟩

/-- C9: two consecutive listings with the same owner and criteria and no
intervening write return the same payload, and after the first call the
payload sits in the cache under the deterministic key, so the second call is
served from cache. -/
theorem c9_repeat_listing_cached (st : TasksState) (f : FilterTaskDto)
    (user : StoredUser) :
    (TasksService.findAll (TasksService.findAll st f user).2 f user).1 =
      (TasksService.findAll st f user).1 ∧
    Cache.get (TasksService.findAll st f user).2.cache
        (tasksCacheKey user.id f) =
      some (TasksService.findAll st f user).1 := by
  cases h : Cache.get st.cache (tasksCacheKey user.id f) with
  | some r =>
    rw [findAll_hit st f user r h]
    exact ⟨by rw [findAll_hit st f user r h], h⟩
  | none =>
    rw [findAll_miss st f user h]
    refine ⟨?_, cache_get_set_self _ _ _⟩
    rw [findAll_hit _ f user _ (cache_get_set_self _ _ _)]

/-- C10: the roles guard allows the request when the declared allowed-roles
set is absent or empty; otherwise a missing request user is Forbidden, a
user whose role is in the set is allowed, and any other user is Forbidden. -/
theorem c10_roles_guard_semantics (requiredRoles : Option (List UserRole))
    (user : Option StoredUser) :
    (requiredRoles = none →
      RolesGuard.canActivate requiredRoles user = Except.ok true) ∧
    (∀ roles, requiredRoles = some roles → roles = [] →
      RolesGuard.canActivate requiredRoles user = Except.ok true) ∧
    (∀ roles, requiredRoles = some roles → roles ≠ [] → user = none →
      RolesGuard.canActivate requiredRoles user =
        Except.error (HttpError.forbidden "User not authenticated")) ∧
    (∀ roles u, requiredRoles = some roles → roles ≠ [] → user = some u →
      u.role ∈ roles →
      RolesGuard.canActivate requiredRoles user = Except.ok true) ∧
    (∀ roles u, requiredRoles = some roles → roles ≠ [] → user = some u →
      u.role ∉ roles →
      RolesGuard.canActivate requiredRoles user =
        Except.error (HttpError.forbidden "Access denied. Required role(s) missing")) := by
  refine ⟨?_, ?_, ?_, ?_, ?_⟩
  · intro h
    simp [RolesGuard.canActivate, h]
  · intro roles h h0
    simp [RolesGuard.canActivate, h, h0]
  · intro roles h h0 hu
    simp [RolesGuard.canActivate, h, hu, List.isEmpty_iff, h0]
  · intro roles u h h0 hu hmem
    simp only [RolesGuard.canActivate, h, hu]
    rw [if_neg (by simp [List.isEmpty_iff, h0])]
    rw [if_pos (by simp only [List.any_eq_true, beq_iff_eq]; exact ⟨u.role, hmem, rfl⟩)]
  · intro roles u h h0 hu hmem
    simp only [RolesGuard.canActivate, h, hu]
    rw [if_neg (by simp [List.isEmpty_iff, h0])]
    rw [if_neg (by simp only [List.any_eq_true, beq_iff_eq, not_exists]
                   intro r hr
                   exact hmem (hr.2 ▸ hr.1))]

/-- C10 witness: absent roles allow; admin-only route with no user is
Forbidden; admin passes; plain user is Forbidden. -/
theorem c10_witness :
    RolesGuard.canActivate none (some aliceUser) = Except.ok true ∧
    RolesGuard.canActivate (some [UserRole.admin]) none =
      Except.error (HttpError.forbidden "User not authenticated") ∧
    RolesGuard.canActivate (some [UserRole.admin]) (some adminUser) =
      Except.ok true ∧
    RolesGuard.canActivate (some [UserRole.admin]) (some aliceUser) =
      Except.error (HttpError.forbidden "Access denied. Required role(s) missing") :=
  ⟨(c10_roles_guard_semantics none (some aliceUser)).1 rfl,
   (c10_roles_guard_semantics (some [UserRole.admin]) none).2.2.1
     [UserRole.admin] rfl (by decide) rfl,
   (c10_roles_guard_semantics (some [UserRole.admin]) (some adminUser)).2.2.2.1
     [UserRole.admin] adminUser rfl (by decide) rfl (by decide),
   (c10_roles_guard_semantics (some [UserRole.admin]) (some aliceUser)).2.2.2.2
     [UserRole.admin] aliceUser rfl (by decide) rfl (by decide)⟩

end NestAuth
